import Mathlib

/-!
Verification of the record reconciliation engine of the netcup libdns provider
and session protocol. The Go source is shallowly embedded: Go slices become
lists, pointer-returning searches become Option, and the network-facing
provider methods become pure functions over an environment that supplies
the outcome of each API action, paired with the trace of actions invoked.
-/

namespace Netcup

/-- Netcup DNS record, from the dnsRecord struct (Go `int` priority is
modelled as Int; string and bool fields are direct). -/
structure dnsRecord where
  ID : String
  HostName : String
  RecType : String
  Priority : Int
  Destination : String
  DeleteRecord : Bool
  deriving DecidableEq, Repr

/-- Value equality of records, from dnsRecord.equals: compares hostName,
recordType, destination and priority; ID and DeleteRecord are not read. -/
def dnsRecord.equals (r : dnsRecord) (otherRec : dnsRecord) : Bool :=
  r.HostName == otherRec.HostName && r.RecType == otherRec.RecType &&
    r.Destination == otherRec.Destination && r.Priority == otherRec.Priority

/-- Zone metadata, from the dnsZone struct. -/
structure dnsZone where
  Name : String
  TTL : Int
  deriving DecidableEq, Repr

/-- Caller-facing record, from libdns.Record as used by this provider
(TTL is a Go time.Duration, modelled as Int nanoseconds). `Type` is a
Lean keyword, hence the primed field name. -/
structure libdnsRecord where
  ID : String
  Type' : String
  Name : String
  Value : String
  TTL : Int
  Priority : Int
  deriving DecidableEq, Repr

/-- From toLibdnsRecords in util.go: converts provider records to the
caller representation, stamping the zone-wide TTL (seconds times 1e9
nanoseconds, as time.Duration(ttl * time.Second)). -/
def toLibdnsRecords (netcupRecords : List dnsRecord) (ttl : Int) : List libdnsRecord :=
  netcupRecords.map (fun r =>
    { ID := r.ID, Type' := r.RecType, Name := r.HostName,
      Value := r.Destination, TTL := ttl * 1000000000, Priority := r.Priority })

/-- From toNetcupRecords in util.go: converts caller records to provider
records; DeleteRecord is the Go zero value false. -/
def toNetcupRecords (libdnsRecords : List libdnsRecord) : List dnsRecord :=
  libdnsRecords.map (fun r =>
    { ID := r.ID, HostName := r.Name, RecType := r.Type',
      Destination := r.Value, Priority := r.Priority, DeleteRecord := false })

/-- Go map membership on whole-record keys, as built by the bIDmap-filling
loop in difference: true iff some element of the list is structurally
equal to the key. -/
def containsRecord (records : List dnsRecord) (r : dnsRecord) : Bool :=
  match records with
  | [] => false
  | x :: rest => if x = r then true else containsRecord rest r

/-- From difference in util.go: keeps the elements of a that are not found
in the map built from b (the map key is the entire dnsRecord value). -/
def difference (a b : List dnsRecord) : List dnsRecord :=
  match a with
  | [] => []
  | elm :: rest =>
    if containsRecord b elm then difference rest b
    else elm :: difference rest b

/-- From findRecordByID in util.go: first record whose ID equals id. -/
def findRecordByID (id : String) (records : List dnsRecord) : Option dnsRecord :=
  match records with
  | [] => none
  | r :: rest => if r.ID == id then some r else findRecordByID id rest

/-- From findRecordByNameAndType in util.go. -/
def findRecordByNameAndType (hostName : String) (recType : String)
    (records : List dnsRecord) : Option dnsRecord :=
  match records with
  | [] => none
  | r :: rest =>
    if r.HostName == hostName && r.RecType == recType then some r
    else findRecordByNameAndType hostName recType rest

/-- From findRecordByNameAndTypeAndPriority in util.go. -/
def findRecordByNameAndTypeAndPriority (hostName : String) (recType : String)
    (priority : Int) (records : List dnsRecord) : Option dnsRecord :=
  match records with
  | [] => none
  | r :: rest =>
    if r.HostName == hostName && r.RecType == recType && r.Priority == priority then some r
    else findRecordByNameAndTypeAndPriority hostName recType priority rest

/-- From findRecord in util.go: id-based search when the candidate carries
an id, otherwise name-and-type search, with priority added for MX. -/
def findRecord (r : dnsRecord) (records : List dnsRecord) : Option dnsRecord :=
  if r.ID != "" then findRecordByID r.ID records
  else if r.RecType != "MX" then findRecordByNameAndType r.HostName r.RecType records
  else findRecordByNameAndTypeAndPriority r.HostName r.RecType r.Priority records

/-- From getRecordsToAppend in util.go: keep a record when no match is
found or the found match is not value-equal. -/
def getRecordsToAppend (appendRecords existingRecords : List dnsRecord) : List dnsRecord :=
  match appendRecords with
  | [] => []
  | r :: rest =>
    match findRecord r existingRecords with
    | none => r :: getRecordsToAppend rest existingRecords
    | some foundRecord =>
      if !(foundRecord.equals r) then r :: getRecordsToAppend rest existingRecords
      else getRecordsToAppend rest existingRecords

/-- The two accumulator slices of getRecordsToSet in util.go
(recordsToUpdate, recordsToAppend), built in input order. -/
def getRecordsToSetAux (setRecords existingRecords : List dnsRecord) :
    List dnsRecord × List dnsRecord :=
  match setRecords with
  | [] => ([], [])
  | r :: rest =>
    let acc := getRecordsToSetAux rest existingRecords
    match findRecord r existingRecords with
    | some foundRecord =>
      if !(foundRecord.equals r) then
        ({ r with ID := foundRecord.ID } :: acc.1, acc.2)
      else acc
    | none => (acc.1, r :: acc.2)

/-- From getRecordsToSet in util.go: append(recordsToUpdate, recordsToAppend...). -/
def getRecordsToSet (setRecords existingRecords : List dnsRecord) : List dnsRecord :=
  (getRecordsToSetAux setRecords existingRecords).1 ++
    (getRecordsToSetAux setRecords existingRecords).2

/-- From getRecordsToDelete in util.go: for each matched record, emit the
input with the ID and Destination of the match and DeleteRecord set; skip
unmatched inputs. -/
def getRecordsToDelete (deleteRecords existingRecords : List dnsRecord) : List dnsRecord :=
  match deleteRecords with
  | [] => []
  | r :: rest =>
    match findRecord r existingRecords with
    | some foundRecord =>
      { r with ID := foundRecord.ID, Destination := foundRecord.Destination, DeleteRecord := true }
        :: getRecordsToDelete rest existingRecords
    | none => getRecordsToDelete rest existingRecords

/-- A Go error value, carrying its message text. -/
structure goError where
  message : String
  deriving DecidableEq, Repr

/-- Request parameters, from the requestParam struct (credentials, session
id and the record set submitted with updateDnsRecords). -/
structure requestParam where
  DomainName : String
  CustomerNumber : String
  APIKey : String
  APIPassword : String
  APISessionID : String
  DNSRecordSet : List dnsRecord
  deriving DecidableEq, Repr

/-- A JSON envelope request, from the request struct. -/
structure request where
  Action : String
  Param : requestParam
  deriving DecidableEq, Repr

/-- A parsed JSON envelope response, from the response struct (the raw
responsedata payload is kept as a string). -/
structure response where
  Action : String
  Status : String
  ShortMessage : String
  LongMessage : String
  ResponseData : String
  deriving DecidableEq, Repr

/-- Outcome of submitting one HTTP request and decoding its body, covering
the fallible steps of doRequest before the status check: a transport
failure (http.DefaultClient.Do or body read), a JSON unmarshal failure, or
a successfully parsed response envelope. -/
inductive fetchResult where
  | transportError : goError → fetchResult
  | parseError : goError → fetchResult
  | parsed : response → fetchResult

/-- From doRequest in client.go: submit the request once, propagate
transport and parse failures, fail with the envelope shortmessage and
longmessage when status is not success, and return the parsed response
otherwise. The second component records every request submitted to the
HTTP client by this call. -/
def doRequest (fetch : request → fetchResult) (req : request) :
    Except goError response × List request :=
  match fetch req with
  | .transportError e => (.error e, [req])
  | .parseError e => (.error e, [req])
  | .parsed resp =>
    if resp.Status != "success" then
      (.error ⟨"[netcup] " ++ resp.ShortMessage ++ ": " ++ resp.LongMessage⟩, [req])
    else
      (.ok resp, [req])

/-- One named provider action invoked during a top-level call. -/
inductive apiAction where
  | login : apiAction
  | logout : apiAction
  | infoDnsZone : apiAction
  | infoDnsRecords : apiAction
  | updateDnsRecords : List dnsRecord → apiAction
  deriving DecidableEq, Repr

/-- True exactly on an updateDnsRecords action. -/
def apiAction.isUpdate : apiAction → Bool
  | .updateDnsRecords _ => true
  | _ => false

/-- Environment supplying the outcome of each provider action for one
top-level call: the session id from login, the zone metadata, the current
record list, and (per submitted batch) the post-update record set. The
logout outcome is carried so that theorems can state that the operation
result does not depend on it (the Go code discards the logout outcome). -/
structure providerEnv where
  loginResult : Except goError String
  logoutResult : Except goError Unit
  infoDnsZoneResult : Except goError dnsZone
  infoDnsRecordsResult : Except goError (List dnsRecord)
  updateDnsRecordsResult : List dnsRecord → Except goError (List dnsRecord)

/-- From GetRecords in provider.go: login, read zone and records, convert;
logout is deferred, so it closes the trace on every path after a
successful login. Login failure aborts before any further action. -/
def GetRecords (env : providerEnv) :
    Except goError (List libdnsRecord) × List apiAction :=
  match env.loginResult with
  | .error e => (.error e, [.login])
  | .ok _ =>
    match env.infoDnsZoneResult with
    | .error e => (.error e, [.login, .infoDnsZone, .logout])
    | .ok zone =>
      match env.infoDnsRecordsResult with
      | .error e => (.error e, [.login, .infoDnsZone, .infoDnsRecords, .logout])
      | .ok recordSet =>
        (.ok (toLibdnsRecords recordSet zone.TTL),
          [.login, .infoDnsZone, .infoDnsRecords, .logout])

/-- From AppendRecords in provider.go: after reading the zone and current
records, compute the append batch; an empty batch returns an empty list
without submitting updateDnsRecords, otherwise the batch is submitted and
echoed back converted. -/
def AppendRecords (env : providerEnv) (records : List libdnsRecord) :
    Except goError (List libdnsRecord) × List apiAction :=
  match env.loginResult with
  | .error e => (.error e, [.login])
  | .ok _ =>
    match env.infoDnsZoneResult with
    | .error e => (.error e, [.login, .infoDnsZone, .logout])
    | .ok zone =>
      match env.infoDnsRecordsResult with
      | .error e => (.error e, [.login, .infoDnsZone, .infoDnsRecords, .logout])
      | .ok existingRecords =>
        let recordsToAppend := getRecordsToAppend (toNetcupRecords records) existingRecords
        if recordsToAppend.isEmpty then
          (.ok [], [.login, .infoDnsZone, .infoDnsRecords, .logout])
        else
          match env.updateDnsRecordsResult recordsToAppend with
          | .error e =>
            (.error e,
              [.login, .infoDnsZone, .infoDnsRecords, .updateDnsRecords recordsToAppend, .logout])
          | .ok _ =>
            (.ok (toLibdnsRecords recordsToAppend zone.TTL),
              [.login, .infoDnsZone, .infoDnsRecords, .updateDnsRecords recordsToAppend, .logout])

/-- From SetRecords in provider.go: same session shape as AppendRecords,
with the set batch (updates then appends) computed by getRecordsToSet. -/
def SetRecords (env : providerEnv) (records : List libdnsRecord) :
    Except goError (List libdnsRecord) × List apiAction :=
  match env.loginResult with
  | .error e => (.error e, [.login])
  | .ok _ =>
    match env.infoDnsZoneResult with
    | .error e => (.error e, [.login, .infoDnsZone, .logout])
    | .ok zone =>
      match env.infoDnsRecordsResult with
      | .error e => (.error e, [.login, .infoDnsZone, .infoDnsRecords, .logout])
      | .ok existingRecords =>
        let recordsToSet := getRecordsToSet (toNetcupRecords records) existingRecords
        if recordsToSet.isEmpty then
          (.ok [], [.login, .infoDnsZone, .infoDnsRecords, .logout])
        else
          match env.updateDnsRecordsResult recordsToSet with
          | .error e =>
            (.error e,
              [.login, .infoDnsZone, .infoDnsRecords, .updateDnsRecords recordsToSet, .logout])
          | .ok _ =>
            (.ok (toLibdnsRecords recordsToSet zone.TTL),
              [.login, .infoDnsZone, .infoDnsRecords, .updateDnsRecords recordsToSet, .logout])

/-- From DeleteRecords in provider.go: same session shape, with the
deletion batch computed by getRecordsToDelete. -/
def DeleteRecords (env : providerEnv) (records : List libdnsRecord) :
    Except goError (List libdnsRecord) × List apiAction :=
  match env.loginResult with
  | .error e => (.error e, [.login])
  | .ok _ =>
    match env.infoDnsZoneResult with
    | .error e => (.error e, [.login, .infoDnsZone, .logout])
    | .ok zone =>
      match env.infoDnsRecordsResult with
      | .error e => (.error e, [.login, .infoDnsZone, .infoDnsRecords, .logout])
      | .ok existingRecords =>
        let recordsToDelete := getRecordsToDelete (toNetcupRecords records) existingRecords
        if recordsToDelete.isEmpty then
          (.ok [], [.login, .infoDnsZone, .infoDnsRecords, .logout])
        else
          match env.updateDnsRecordsResult recordsToDelete with
          | .error e =>
            (.error e,
              [.login, .infoDnsZone, .infoDnsRecords, .updateDnsRecords recordsToDelete, .logout])
          | .ok _ =>
            (.ok (toLibdnsRecords recordsToDelete zone.TTL),
              [.login, .infoDnsZone, .infoDnsRecords, .updateDnsRecords recordsToDelete, .logout])

/-- An environment in which login and both reads succeed, the zone is
empty, and updateDnsRecords echoes its batch. -/
def envOkEmpty : providerEnv :=
  ⟨.ok "sid", .ok (), .ok ⟨"example.com", 300⟩, .ok [], fun b => .ok b⟩

/-- A concrete parsed provider response with a non-success status. -/
def respFail : response :=
  ⟨"login", "error", "validation error", "wrong credentials", ""⟩

/-- A concrete login request envelope. -/
def reqLogin : request :=
  ⟨"login", ⟨"", "12345", "key", "pw", "", []⟩⟩

/-- A transport whose response always parses to respFail. -/
def fetchFail : request → fetchResult := fun _ => .parsed respFail

/-- A candidate carrying an id that no existing record has. -/
def rStale : dnsRecord := ⟨"1", "a", "A", 0, "x", false⟩

/-- An existing list whose only record is value-equal to rStale but has a
different id. -/
def exStale : List dnsRecord := [⟨"2", "a", "A", 0, "x", false⟩]

/-- A desired MX record without an id. -/
def rMX : dnsRecord := ⟨"", "mail", "MX", 10, "mx2.example.", false⟩

/-- Two existing MX records on one host name, distinguished by priority. -/
def exMX : List dnsRecord :=
  [⟨"8", "mail", "MX", 20, "mx1.example.", false⟩,
   ⟨"9", "mail", "MX", 10, "mx2.example.", false⟩]

/-! Helper lemmas connecting the loop-style searches to List.find?. -/

theorem findRecordByID_eq_find (id : String) (l : List dnsRecord) :
    findRecordByID id l = l.find? (fun x => x.ID == id) := by
  induction l with
  | nil => rfl
  | cons x rest ih => cases h : x.ID == id <;> simp [findRecordByID, List.find?_cons, h, ih]

theorem findRecordByNameAndType_eq_find (hostName recType : String) (l : List dnsRecord) :
    findRecordByNameAndType hostName recType l =
      l.find? (fun x => x.HostName == hostName && x.RecType == recType) := by
  induction l with
  | nil => rfl
  | cons x rest ih =>
    cases h : x.HostName == hostName && x.RecType == recType <;>
      simp [findRecordByNameAndType, List.find?_cons, h, ih]

theorem findRecordByNameAndTypeAndPriority_eq_find (hostName recType : String)
    (priority : Int) (l : List dnsRecord) :
    findRecordByNameAndTypeAndPriority hostName recType priority l =
      l.find? (fun x => x.HostName == hostName && x.RecType == recType &&
        x.Priority == priority) := by
  induction l with
  | nil => rfl
  | cons x rest ih =>
    cases h : x.HostName == hostName && x.RecType == recType && x.Priority == priority <;>
      simp [findRecordByNameAndTypeAndPriority, List.find?_cons, h, ih]

theorem findRecordByID_eq_none (id : String) (l : List dnsRecord)
    (h : ∀ x ∈ l, x.ID ≠ id) : findRecordByID id l = none := by
  rw [findRecordByID_eq_find, List.find?_eq_none]
  intro x hx
  simpa using h x hx

theorem getRecordsToAppend_eq_filter (desired existing : List dnsRecord) :
    getRecordsToAppend desired existing =
      desired.filter (fun r =>
        match findRecord r existing with
        | none => true
        | some f => !(f.equals r)) := by
  induction desired with
  | nil => rfl
  | cons r rest ih =>
    cases h : findRecord r existing with
    | none => simp [getRecordsToAppend, List.filter_cons, h, ih]
    | some f => cases hq : f.equals r <;> simp [getRecordsToAppend, List.filter_cons, h, hq, ih]

theorem getRecordsToSetAux_eq (desired existing : List dnsRecord) :
    getRecordsToSetAux desired existing =
      (desired.filterMap (fun r =>
         match findRecord r existing with
         | some f => if f.equals r then none else some { r with ID := f.ID }
         | none => none),
       desired.filter (fun r => (findRecord r existing).isNone)) := by
  induction desired with
  | nil => rfl
  | cons r rest ih =>
    cases h : findRecord r existing with
    | none => simp [getRecordsToSetAux, List.filterMap_cons, List.filter_cons, h, ih]
    | some f =>
      cases hq : f.equals r <;>
        simp [getRecordsToSetAux, List.filterMap_cons, List.filter_cons, h, hq, ih]

theorem getRecordsToDelete_eq_filterMap (desired existing : List dnsRecord) :
    getRecordsToDelete desired existing =
      desired.filterMap (fun r =>
        match findRecord r existing with
        | some f =>
          some { r with ID := f.ID, Destination := f.Destination, DeleteRecord := true }
        | none => none) := by
  induction desired with
  | nil => rfl
  | cons r rest ih =>
    cases h : findRecord r existing <;>
      simp [getRecordsToDelete, List.filterMap_cons, h, ih]

theorem containsRecord_eq_mem (l : List dnsRecord) (r : dnsRecord) :
    containsRecord l r = decide (r ∈ l) := by
  induction l with
  | nil => rfl
  | cons x rest ih =>
    by_cases h : x = r
    · simp [containsRecord, h, List.mem_cons]
    · simp only [containsRecord, if_neg h, ih, List.mem_cons]
      rw [decide_eq_decide]
      exact ⟨Or.inr, fun hc => hc.elim (fun hrx => absurd hrx.symm h) id⟩

/-- Claim C1: getRecordsToSet returns all update entries followed by all
append entries: a desired record whose identity resolves to a non-equal
existing record becomes an update carrying the id of the matched record with
all other fields from the desired record, in desired order; a desired
record with no match becomes an append, unchanged and in desired order;
a desired record whose match is already equal is dropped. -/
theorem setBatch_updates_before_appends (desired existing : List dnsRecord) :
    getRecordsToSet desired existing =
      desired.filterMap (fun r =>
        match findRecord r existing with
        | some f => if f.equals r then none else some { r with ID := f.ID }
        | none => none)
      ++ desired.filter (fun r => (findRecord r existing).isNone) := by
  rw [getRecordsToSet, getRecordsToSetAux_eq]

/-- Claim C2, counterexample: every desired record has a value-equal
counterpart in existing (the second one), yet the append batch is not
empty, because identity resolution stops at the first record with the
same host name and type, which is not equal. -/
theorem appendBatch_equal_counterpart_counterexample :
    (∀ r ∈ [(⟨"", "a", "A", 0, "x", false⟩ : dnsRecord)],
      ∃ x ∈ [(⟨"1", "a", "A", 0, "y", false⟩ : dnsRecord), ⟨"2", "a", "A", 0, "x", false⟩],
        x.equals r = true) ∧
    getRecordsToAppend [⟨"", "a", "A", 0, "x", false⟩]
      [⟨"1", "a", "A", 0, "y", false⟩, ⟨"2", "a", "A", 0, "x", false⟩] ≠ [] := by
  decide

/-- Claim C2, amended: getRecordsToAppend includes a desired record,
unchanged and in input order, exactly when identity resolution finds no
match in existing or the found match is not equal to it; in particular the
batch is empty whenever identity resolution finds, for every desired
record, a match that is equal to it. -/
theorem appendBatch_characterization (desired existing : List dnsRecord) :
    getRecordsToAppend desired existing =
      desired.filter (fun r =>
        match findRecord r existing with
        | none => true
        | some f => !(f.equals r)) ∧
    ((∀ r ∈ desired,
        (match findRecord r existing with
         | some f => f.equals r
         | none => false) = true) →
      getRecordsToAppend desired existing = []) := by
  refine ⟨getRecordsToAppend_eq_filter desired existing, fun h => ?_⟩
  rw [getRecordsToAppend_eq_filter, List.filter_eq_nil_iff]
  intro r hr
  have hm := h r hr
  cases hf : findRecord r existing with
  | none => rw [hf] at hm; exact absurd hm (by simp)
  | some f => rw [hf] at hm; simp at hm; simp [hf, hm]

/-- Claim C2 witness: a desired record whose resolved match is equal is
dropped, so the batch over one such record is empty. -/
theorem appendBatch_characterization_instance :
    getRecordsToAppend [⟨"", "a", "A", 0, "x", false⟩] [⟨"7", "a", "A", 0, "x", false⟩] = [] :=
  (appendBatch_characterization [⟨"", "a", "A", 0, "x", false⟩]
    [⟨"7", "a", "A", 0, "x", false⟩]).2 (by decide)

/-- Claim C3: getRecordsToDelete emits, for each desired record whose
identity resolves to an existing record, a deletion entry carrying the
id and destination of the matched record with DeleteRecord set to true, skips
unmatched desired records silently, and returns the empty batch when no
desired record resolves to any existing record. -/
theorem deleteBatch_characterization (desired existing : List dnsRecord) :
    getRecordsToDelete desired existing =
      desired.filterMap (fun r =>
        match findRecord r existing with
        | some f =>
          some { r with ID := f.ID, Destination := f.Destination, DeleteRecord := true }
        | none => none) ∧
    ((∀ r ∈ desired, findRecord r existing = none) →
      getRecordsToDelete desired existing = []) := by
  refine ⟨getRecordsToDelete_eq_filterMap desired existing, fun h => ?_⟩
  rw [getRecordsToDelete_eq_filterMap, List.filterMap_eq_nil_iff]
  intro r hr
  rw [h r hr]

/-- Claim C3 witness: deleting against an empty zone is a no-op. -/
theorem deleteBatch_characterization_instance :
    getRecordsToDelete [⟨"", "a", "A", 0, "x", false⟩] [] = [] :=
  (deleteBatch_characterization [⟨"", "a", "A", 0, "x", false⟩] []).2 (by decide)

/-- Claim C5, counterexample: the id of the first record appears among the
baseline ids, yet difference still returns it, because membership in the
baseline is tested on the whole record value, not on the id alone. -/
theorem difference_id_only_counterexample :
    (⟨"1", "a", "A", 0, "x", false⟩ : dnsRecord).ID =
      (⟨"1", "b", "A", 0, "x", false⟩ : dnsRecord).ID ∧
    difference [⟨"1", "a", "A", 0, "x", false⟩] [⟨"1", "b", "A", 0, "x", false⟩] =
      [⟨"1", "a", "A", 0, "x", false⟩] := by
  decide

/-- Claim C5, amended: difference returns exactly the records of the
result batch that do not occur in the baseline batch as whole-record
values (every field compared, id included), in result-batch order. -/
theorem difference_structural_characterization (a b : List dnsRecord) :
    difference a b = a.filter (fun r => decide (r ∉ b)) := by
  induction a with
  | nil => rfl
  | cons x rest ih =>
    by_cases h : x ∈ b <;> simp [difference, containsRecord_eq_mem, h, ih, List.filter_cons]

/-- Claim C6: equals is true iff hostName, recordType, destination and
priority are pairwise equal, and neither the id nor the deletion flag of
either record ever affects its outcome. -/
theorem equals_ignores_id_and_flag (a b : dnsRecord) :
    (dnsRecord.equals a b = true ↔
      a.HostName = b.HostName ∧ a.RecType = b.RecType ∧
        a.Destination = b.Destination ∧ a.Priority = b.Priority) ∧
    (∀ i j : String, ∀ d e : Bool,
      dnsRecord.equals { a with ID := i, DeleteRecord := d }
          { b with ID := j, DeleteRecord := e } =
        dnsRecord.equals a b) := by
  constructor
  · simp [dnsRecord.equals, and_assoc]
  · intro i j d e
    rfl

/-- Claim C6 witness: two records agreeing on the four identity fields are
equal despite differing ids and deletion flags. -/
theorem equals_ignores_id_and_flag_instance :
    dnsRecord.equals ⟨"1", "www", "A", 0, "x", false⟩ ⟨"2", "www", "A", 0, "x", true⟩ = true :=
  ((equals_ignores_id_and_flag ⟨"1", "www", "A", 0, "x", false⟩
    ⟨"2", "www", "A", 0, "x", true⟩).1).mpr (by decide)

/-- Claim C4: findRecord matches by id exactly when the candidate id is
non-empty; otherwise it returns the first existing record with equal
hostName and recordType, with priority added as a criterion for MX — so an
MX candidate without an id only ever matches a record sharing both its
host name and its priority — and it returns none when nothing matches. -/
theorem findRecord_characterization (r : dnsRecord) (existing : List dnsRecord) :
    (findRecord r existing =
      if r.ID ≠ "" then existing.find? (fun x => x.ID == r.ID)
      else if r.RecType ≠ "MX" then
        existing.find? (fun x => x.HostName == r.HostName && x.RecType == r.RecType)
      else
        existing.find? (fun x =>
          x.HostName == r.HostName && x.RecType == r.RecType && x.Priority == r.Priority)) ∧
    (r.ID = "" → r.RecType = "MX" → ∀ f, findRecord r existing = some f →
      f.HostName = r.HostName ∧ f.RecType = "MX" ∧ f.Priority = r.Priority) := by
  constructor
  · by_cases h1 : r.ID = ""
    · by_cases h2 : r.RecType = "MX"
      · simp [findRecord, h1, h2, findRecordByNameAndTypeAndPriority_eq_find]
      · simp [findRecord, h1, h2, findRecordByNameAndType_eq_find]
    · simp [findRecord, h1, findRecordByID_eq_find]
  · intro h1 h2 f hf
    simp only [findRecord, h1, h2] at hf
    rw [if_neg (by simp)] at hf
    rw [if_neg (by simp)] at hf
    rw [findRecordByNameAndTypeAndPriority_eq_find] at hf
    have hp := List.find?_some hf
    simp only [Bool.and_eq_true, beq_iff_eq] at hp
    exact ⟨hp.1.1, hp.1.2, hp.2⟩

/-- Claim C4 witness: of two MX records on the same host name, the
candidate resolves to the one sharing its priority. -/
theorem findRecord_characterization_instance :
    (⟨"9", "mail", "MX", 10, "mx2.example.", false⟩ : dnsRecord).HostName = rMX.HostName ∧
    (⟨"9", "mail", "MX", 10, "mx2.example.", false⟩ : dnsRecord).RecType = "MX" ∧
    (⟨"9", "mail", "MX", 10, "mx2.example.", false⟩ : dnsRecord).Priority = rMX.Priority :=
  (findRecord_characterization rMX exMX).2 (by decide) (by decide)
    ⟨"9", "mail", "MX", 10, "mx2.example.", false⟩ (by decide)

/-! Session-shape helper lemmas, one group per provider method. -/

theorem GetRecords_head (env : providerEnv) :
    (GetRecords env).2.head? = some .login := by
  rcases env with ⟨lr, lo, zr, rr, ur⟩
  cases lr <;> cases zr <;> cases rr <;> rfl

theorem GetRecords_login_error (env : providerEnv) (e : goError)
    (h : env.loginResult = .error e) : GetRecords env = (.error e, [.login]) := by
  simp [GetRecords, h]

theorem GetRecords_last (env : providerEnv) (sid : String)
    (h : env.loginResult = .ok sid) :
    (GetRecords env).2.getLast? = some .logout := by
  rcases env with ⟨lr, lo, zr, rr, ur⟩
  cases h
  cases zr <;> cases rr <;> rfl

theorem GetRecords_logout_independent (env : providerEnv)
    (x y : Except goError Unit) :
    (GetRecords { env with logoutResult := x }).1 =
      (GetRecords { env with logoutResult := y }).1 := by
  rcases env with ⟨lr, lo, zr, rr, ur⟩
  rfl

theorem AppendRecords_head (env : providerEnv) (records : List libdnsRecord) :
    (AppendRecords env records).2.head? = some .login := by
  rcases env with ⟨lr, lo, zr, rr, ur⟩
  cases lr <;> cases zr <;> cases rr <;>
    simp only [AppendRecords] <;> (try split) <;> (try split) <;> rfl

theorem AppendRecords_login_error (env : providerEnv) (records : List libdnsRecord)
    (e : goError) (h : env.loginResult = .error e) :
    AppendRecords env records = (.error e, [.login]) := by
  simp [AppendRecords, h]

theorem AppendRecords_last (env : providerEnv) (records : List libdnsRecord)
    (sid : String) (h : env.loginResult = .ok sid) :
    (AppendRecords env records).2.getLast? = some .logout := by
  rcases env with ⟨lr, lo, zr, rr, ur⟩
  cases h
  cases zr <;> cases rr <;>
    simp only [AppendRecords] <;> (try split) <;> (try split) <;> rfl

theorem AppendRecords_logout_independent (env : providerEnv)
    (records : List libdnsRecord) (x y : Except goError Unit) :
    (AppendRecords { env with logoutResult := x } records).1 =
      (AppendRecords { env with logoutResult := y } records).1 := by
  rcases env with ⟨lr, lo, zr, rr, ur⟩
  rfl

theorem SetRecords_head (env : providerEnv) (records : List libdnsRecord) :
    (SetRecords env records).2.head? = some .login := by
  rcases env with ⟨lr, lo, zr, rr, ur⟩
  cases lr <;> cases zr <;> cases rr <;>
    simp only [SetRecords] <;> (try split) <;> (try split) <;> rfl

theorem SetRecords_login_error (env : providerEnv) (records : List libdnsRecord)
    (e : goError) (h : env.loginResult = .error e) :
    SetRecords env records = (.error e, [.login]) := by
  simp [SetRecords, h]

theorem SetRecords_last (env : providerEnv) (records : List libdnsRecord)
    (sid : String) (h : env.loginResult = .ok sid) :
    (SetRecords env records).2.getLast? = some .logout := by
  rcases env with ⟨lr, lo, zr, rr, ur⟩
  cases h
  cases zr <;> cases rr <;>
    simp only [SetRecords] <;> (try split) <;> (try split) <;> rfl

theorem SetRecords_logout_independent (env : providerEnv)
    (records : List libdnsRecord) (x y : Except goError Unit) :
    (SetRecords { env with logoutResult := x } records).1 =
      (SetRecords { env with logoutResult := y } records).1 := by
  rcases env with ⟨lr, lo, zr, rr, ur⟩
  rfl

theorem DeleteRecords_head (env : providerEnv) (records : List libdnsRecord) :
    (DeleteRecords env records).2.head? = some .login := by
  rcases env with ⟨lr, lo, zr, rr, ur⟩
  cases lr <;> cases zr <;> cases rr <;>
    simp only [DeleteRecords] <;> (try split) <;> (try split) <;> rfl

theorem DeleteRecords_login_error (env : providerEnv) (records : List libdnsRecord)
    (e : goError) (h : env.loginResult = .error e) :
    DeleteRecords env records = (.error e, [.login]) := by
  simp [DeleteRecords, h]

theorem DeleteRecords_last (env : providerEnv) (records : List libdnsRecord)
    (sid : String) (h : env.loginResult = .ok sid) :
    (DeleteRecords env records).2.getLast? = some .logout := by
  rcases env with ⟨lr, lo, zr, rr, ur⟩
  cases h
  cases zr <;> cases rr <;>
    simp only [DeleteRecords] <;> (try split) <;> (try split) <;> rfl

theorem DeleteRecords_logout_independent (env : providerEnv)
    (records : List libdnsRecord) (x y : Except goError Unit) :
    (DeleteRecords { env with logoutResult := x } records).1 =
      (DeleteRecords { env with logoutResult := y } records).1 := by
  rcases env with ⟨lr, lo, zr, rr, ur⟩
  rfl

/-- Claim C7: in any session whose login and reads succeed, if the
computed reconciliation batch is empty then AppendRecords, SetRecords and
DeleteRecords each return an empty record list and their trace contains no
updateDnsRecords action — an empty batch is never submitted. -/
theorem empty_batch_not_submitted (env : providerEnv) (records : List libdnsRecord)
    (sid : String) (zone : dnsZone) (existing : List dnsRecord)
    (hl : env.loginResult = .ok sid)
    (hz : env.infoDnsZoneResult = .ok zone)
    (hr : env.infoDnsRecordsResult = .ok existing) :
    (getRecordsToAppend (toNetcupRecords records) existing = [] →
      (AppendRecords env records).1 = .ok [] ∧
        (AppendRecords env records).2.all (fun a => !a.isUpdate) = true) ∧
    (getRecordsToSet (toNetcupRecords records) existing = [] →
      (SetRecords env records).1 = .ok [] ∧
        (SetRecords env records).2.all (fun a => !a.isUpdate) = true) ∧
    (getRecordsToDelete (toNetcupRecords records) existing = [] →
      (DeleteRecords env records).1 = .ok [] ∧
        (DeleteRecords env records).2.all (fun a => !a.isUpdate) = true) := by
  refine ⟨fun hb => ?_, fun hb => ?_, fun hb => ?_⟩ <;>
    simp [AppendRecords, SetRecords, DeleteRecords, hl, hz, hr, hb, apiAction.isUpdate]

/-- Claim C7 witness: an append of nothing against an empty zone returns
an empty list and submits no update action. -/
theorem empty_batch_not_submitted_instance :
    (AppendRecords envOkEmpty []).1 = .ok [] ∧
      (AppendRecords envOkEmpty []).2.all (fun a => !a.isUpdate) = true :=
  (empty_batch_not_submitted envOkEmpty [] "sid" ⟨"example.com", 300⟩ []
    rfl rfl rfl).1 rfl

/-- Claim C8: the trace of every top-level operation begins with login; when
login fails the login error is returned directly and nothing further is
invoked; when login succeeds the trace ends with logout on every exit
path; and the operation result never depends on the logout outcome. -/
theorem session_login_logout_discipline (env : providerEnv)
    (records : List libdnsRecord) (e : goError) (sid : String)
    (x y : Except goError Unit) :
    ((GetRecords env).2.head? = some .login ∧
     (AppendRecords env records).2.head? = some .login ∧
     (SetRecords env records).2.head? = some .login ∧
     (DeleteRecords env records).2.head? = some .login) ∧
    (env.loginResult = .error e →
      GetRecords env = (.error e, [.login]) ∧
      AppendRecords env records = (.error e, [.login]) ∧
      SetRecords env records = (.error e, [.login]) ∧
      DeleteRecords env records = (.error e, [.login])) ∧
    (env.loginResult = .ok sid →
      (GetRecords env).2.getLast? = some .logout ∧
      (AppendRecords env records).2.getLast? = some .logout ∧
      (SetRecords env records).2.getLast? = some .logout ∧
      (DeleteRecords env records).2.getLast? = some .logout) ∧
    ((GetRecords { env with logoutResult := x }).1 =
        (GetRecords { env with logoutResult := y }).1 ∧
     (AppendRecords { env with logoutResult := x } records).1 =
        (AppendRecords { env with logoutResult := y } records).1 ∧
     (SetRecords { env with logoutResult := x } records).1 =
        (SetRecords { env with logoutResult := y } records).1 ∧
     (DeleteRecords { env with logoutResult := x } records).1 =
        (DeleteRecords { env with logoutResult := y } records).1) :=
  ⟨⟨GetRecords_head env, AppendRecords_head env records,
      SetRecords_head env records, DeleteRecords_head env records⟩,
   fun h => ⟨GetRecords_login_error env e h, AppendRecords_login_error env records e h,
      SetRecords_login_error env records e h, DeleteRecords_login_error env records e h⟩,
   fun h => ⟨GetRecords_last env sid h, AppendRecords_last env records sid h,
      SetRecords_last env records sid h, DeleteRecords_last env records sid h⟩,
   GetRecords_logout_independent env x y,
   AppendRecords_logout_independent env records x y,
   SetRecords_logout_independent env records x y,
   DeleteRecords_logout_independent env records x y⟩

/-- Claim C8 witness: in a successful session, the trace starts with login
and ends with logout. -/
theorem session_login_logout_discipline_instance :
    (GetRecords envOkEmpty).2.head? = some .login ∧
      (GetRecords envOkEmpty).2.getLast? = some .logout := by
  have h := session_login_logout_discipline envOkEmpty [] ⟨"boom"⟩ "sid" (.ok ()) (.ok ())
  exact ⟨h.1.1, (h.2.2.1 rfl).1⟩

/-- Claim C9: once a provider response is received and parsed, doRequest
submits the request exactly once (never retries), returns an error
carrying the shortmessage of the response and longmessage exactly when the
status is not success, and returns the parsed response on success. -/
theorem doRequest_envelope_contract (fetch : request → fetchResult) (req : request)
    (resp : response) (h : fetch req = .parsed resp) :
    (doRequest fetch req).2 = [req] ∧
    ((doRequest fetch req).1 =
        .error ⟨"[netcup] " ++ resp.ShortMessage ++ ": " ++ resp.LongMessage⟩ ↔
      resp.Status ≠ "success") ∧
    (resp.Status = "success" → (doRequest fetch req).1 = .ok resp) := by
  by_cases hs : resp.Status = "success" <;> simp [doRequest, h, hs]

/-- Claim C9 witness: a parsed non-success response yields a single
submission and the diagnostic error. -/
theorem doRequest_envelope_contract_instance :
    (doRequest fetchFail reqLogin).2 = [reqLogin] ∧
    ((doRequest fetchFail reqLogin).1 =
        .error ⟨"[netcup] " ++ respFail.ShortMessage ++ ": " ++ respFail.LongMessage⟩ ↔
      respFail.Status ≠ "success") ∧
    (respFail.Status = "success" → (doRequest fetchFail reqLogin).1 = .ok respFail) :=
  doRequest_envelope_contract fetchFail reqLogin respFail rfl

/-- Claim C10: a candidate whose non-empty id is held by no existing record resolves to nothing — there is no fallback to name-and-type matching —
so getRecordsToDelete silently skips it, getRecordsToAppend keeps it
unchanged, and getRecordsToSet routes it to the append side. -/
theorem stale_id_no_fallback (r : dnsRecord) (ds existing : List dnsRecord)
    (hid : r.ID ≠ "") (hno : ∀ x ∈ existing, x.ID ≠ r.ID) :
    findRecord r existing = none ∧
    getRecordsToDelete (r :: ds) existing = getRecordsToDelete ds existing ∧
    getRecordsToAppend (r :: ds) existing = r :: getRecordsToAppend ds existing ∧
    getRecordsToSetAux (r :: ds) existing =
      ((getRecordsToSetAux ds existing).1, r :: (getRecordsToSetAux ds existing).2) := by
  have hf : findRecord r existing = none := by
    rw [findRecord, if_pos (by simpa using hid)]
    exact findRecordByID_eq_none r.ID existing hno
  refine ⟨hf, ?_, ?_, ?_⟩ <;> simp [getRecordsToDelete, getRecordsToAppend, getRecordsToSetAux, hf]

/-- Claim C10 witness: a delete request with a stale id is a no-op even
though a record equal in every value field exists under another id. -/
theorem stale_id_no_fallback_instance :
    findRecord rStale exStale = none ∧
    getRecordsToDelete [rStale] exStale = getRecordsToDelete [] exStale ∧
    getRecordsToAppend [rStale] exStale = rStale :: getRecordsToAppend [] exStale ∧
    getRecordsToSetAux [rStale] exStale =
      ((getRecordsToSetAux [] exStale).1, rStale :: (getRecordsToSetAux [] exStale).2) :=
  stale_id_no_fallback rStale [] exStale (by decide) (by decide)

end Netcup
